import Mathlib

/-!
Shallow embedding of the CHIP-8 interpreter core (`src/chip8.rs` and
`src/chip8_util.rs`).  Machine bytes and words are modelled as `Nat`
(register values stay below 256 and addresses below 4096 by the same
masking the Rust code performs); `panic!` and out-of-bounds array
indexing are modelled as `none` of an `Option` result.  Register,
memory and display arrays are modelled as total functions `Nat → Nat`
updated pointwise, with the same bounds guards the Rust runtime
enforces where an index can actually leave the array.
-/

namespace RustyChip

/-- Pointwise update of an array modelled as a function, mirroring a
Rust slice assignment `arr[i] = v`. -/
def updateAt (arr : Nat → Nat) (i v : Nat) : Nat → Nat :=
  fun j => if j = i then v else arr j

/-- `chip8_util::validate_argument`: panics (here `none`) unless
`value & mask == value`. -/
def validate_argument (value mask : Nat) : Option Nat :=
  if value &&& mask = value then some value else none

/-- The `Chip8` machine state struct (`src/chip8.rs`, lines 6-17). -/
structure Chip8 where
  memory : Nat → Nat
  cpu_registers : Nat → Nat
  index_register : Nat
  program_counter : Nat
  gfx : Nat → Nat
  delay_timer : Nat
  sound_timer : Nat
  stack_data : List Nat
  key_states : Nat

namespace Chip8

/-- `Chip8::new`: note the stack starts as `vec![0; 16]`, a vector of
sixteen zero entries, not an empty vector. -/
def new : Chip8 where
  memory := fun _ => 0
  cpu_registers := fun _ => 0
  index_register := 0
  program_counter := 0x200
  gfx := fun _ => 0
  delay_timer := 0
  sound_timer := 0
  stack_data := List.replicate 16 0
  key_states := 0

/-- `00EE` `subroutine_return`: set the program counter to the last
element of `stack_data` and pop it; panic when the vector is empty. -/
def subroutine_return (s : Chip8) : Option Chip8 :=
  match s.stack_data.getLast? with
  | some x => some { s with program_counter := x, stack_data := s.stack_data.dropLast }
  | none => none

/-- `2NNN` `call_address`: push the current program counter, then set
the program counter to the (validated) target address.  No capacity
check of any kind is performed on the vector. -/
def call_address (s : Chip8) (address : Nat) : Option Chip8 :=
  let pushed : Chip8 := { s with stack_data := s.stack_data ++ [s.program_counter] }
  match validate_argument address 0xFFF with
  | some a => some { pushed with program_counter := a }
  | none => none

/-- `7XKK` `add`: `result = byte + Vx` as a 16-bit sum; when the sum
exceeds 255 the code subtracts 255 (not 256) before truncating to
8 bits. -/
def add (s : Chip8) (reg_x byte_value : Nat) : Option Chip8 :=
  match validate_argument reg_x 0xF with
  | none => none
  | some _ =>
    match validate_argument byte_value 0xFF with
    | none => none
    | some _ =>
      let result := byte_value + s.cpu_registers reg_x
      let result := if result > 255 then result - 255 else result
      some { s with cpu_registers := updateAt s.cpu_registers reg_x (result % 256) }

/-- `8XY6` `shift_right_register`: first overwrites `Vx` with the
extracted least-significant bit, then shifts that register right.  The
flag register (index 15) is never written. -/
def shift_right_register (s : Chip8) (reg_x : Nat) : Option Chip8 :=
  match validate_argument reg_x 0xF with
  | none => none
  | some _ =>
    let bit : Nat := if s.cpu_registers reg_x &&& 1 = 1 then 1 else 0
    let s1 : Chip8 :=
      { s with cpu_registers := updateAt s.cpu_registers reg_x bit }
    some
      { s1 with cpu_registers :=
          updateAt s1.cpu_registers reg_x (s1.cpu_registers reg_x >>> 1) }

/-- `8XYE` `shift_left_register`: same structure as the right shift —
it also tests bit 0 (not the most-significant bit), overwrites `Vx`
with that bit, then shifts left with 8-bit truncation.  The flag
register is never written. -/
def shift_left_register (s : Chip8) (reg_x : Nat) : Option Chip8 :=
  match validate_argument reg_x 0xF with
  | none => none
  | some _ =>
    let bit : Nat := if s.cpu_registers reg_x &&& 1 = 1 then 1 else 0
    let s1 : Chip8 :=
      { s with cpu_registers := updateAt s.cpu_registers reg_x bit }
    some
      { s1 with cpu_registers :=
          updateAt s1.cpu_registers reg_x ((s1.cpu_registers reg_x <<< 1) % 256) }

/-- `CXNN` `set_rand`: the random byte drawn from `rand::thread_rng` is
passed in as the explicit parameter `random_num`; the handler stores
`value & random_num` in `Vx` and touches nothing else. -/
def set_rand (s : Chip8) (reg_x value random_num : Nat) : Chip8 :=
  { s with cpu_registers := updateAt s.cpu_registers reg_x (value &&& random_num) }

/-- `FX0A` `wait_for_key`: validates the register index and then
panics unconditionally (the Rust body is
a panic with message wait_for_key not implemented). -/
def wait_for_key (s : Chip8) (reg_x : Nat) : Option Chip8 :=
  match validate_argument reg_x 0xFF with
  | none => none
  | some _ => none

/-- `FX1E` `index_reg_add`: despite the name and the comment
(Set I = I + Vx), the body assigns `Vx` to the index register,
discarding its previous value. -/
def index_reg_add (s : Chip8) (reg_x : Nat) : Option Chip8 :=
  match validate_argument reg_x 0xFF with
  | none => none
  | some _ => some { s with index_register := s.cpu_registers reg_x }

/-- Loop body of `FX65` `read_memory`: `for i in 0..value`, copying
`memory[I + i]` into register `i`.  `remaining` counts the iterations
left; a memory index at or past 4096 panics. -/
def read_memory_go (s : Chip8) (i : Nat) : Nat → Option Chip8
  | 0 => some s
  | remaining + 1 =>
    let memory_location := s.index_register + i
    if memory_location < 4096 then
      read_memory_go
        { s with cpu_registers := updateAt s.cpu_registers i (s.memory memory_location) }
        (i + 1) remaining
    else none

/-- `FX65` `read_memory`: validates the nibble, then runs the loop
`for i in 0..value` — `value` iterations, registers `0` to
`value - 1`. -/
def read_memory (s : Chip8) (value : Nat) : Option Chip8 :=
  match validate_argument value 0xF with
  | none => none
  | some _ => read_memory_go s 0 value

/-- Loop body of `draw_byte`: iterates bit positions `i` with
`remaining` iterations left (started at 8), XOR-ing 255 into
`gfx[index + i]` when sprite bit `7 - i` is set; records whether a lit
cell (255) became unlit.  A gfx index at or past 2048 panics. -/
def draw_byte_go (gfx : Nat → Nat) (index byteVal : Nat) (erased : Bool) :
    Nat → Nat → Option ((Nat → Nat) × Bool)
  | _, 0 => some (gfx, erased)
  | i, remaining + 1 =>
    if index + i < 2048 then
      let pixel := gfx (index + i)
      let newPix := Nat.xor pixel (if (byteVal >>> (7 - i)) &&& 1 = 1 then 255 else 0)
      draw_byte_go (updateAt gfx (index + i) newPix) index byteVal
        (erased || (pixel == 255 && newPix != 255)) (i + 1) remaining
    else none

/-- `draw_byte`: computes `index = y * 64 + x` and XORs the eight
sprite bits into `gfx[index] .. gfx[index + 7]` — consecutive linear
indices, with no wrapping of the column coordinate. -/
def draw_byte (s : Chip8) (x y byteVal : Nat) : Option (Chip8 × Bool) :=
  let index := y * 64 + x
  match draw_byte_go s.gfx index byteVal false 0 8 with
  | some (g, erased) => some ({ s with gfx := g }, erased)
  | none => none

/-- Loop body of `DXYN` `draw`: for each sprite row `i` (with
`remaining` rows left), wraps the row as `(y + i) % 32`, reads the
sprite byte at `I + i` (panicking at or past 4096) and draws it. -/
def draw_go (x y addr : Nat) (s : Chip8) (erased : Bool) :
    Nat → Nat → Option (Chip8 × Bool)
  | _, 0 => some (s, erased)
  | i, remaining + 1 =>
    if addr + i < 4096 then
      let y_wrapped := (y + i) % 32
      match s.draw_byte x y_wrapped (s.memory (addr + i)) with
      | some (s2, e) => draw_go x y addr s2 (erased || e) (i + 1) remaining
      | none => none
    else none

/-- `DXYN` `draw`: validates the register indices against `0xFF`,
reads `Vx`, `Vy` and the index register, draws `bytes_to_read` rows,
and finally stores the collision flag in register 15. -/
def draw (s : Chip8) (reg_x reg_y bytes_to_read : Nat) : Option Chip8 :=
  match validate_argument reg_x 0xFF with
  | none => none
  | some _ =>
    match validate_argument reg_y 0xFF with
    | none => none
    | some _ =>
      let x := s.cpu_registers reg_x
      let y := s.cpu_registers reg_y
      let reading_address := s.index_register
      match draw_go x y reading_address s false 0 bytes_to_read with
      | some (s2, erased) =>
        some
          { s2 with cpu_registers :=
              updateAt s2.cpu_registers 0xF (if erased then 1 else 0) }
      | none => none

end Chip8

/-- Machine state with register `V0 = 255` and everything else as in
`Chip8.new`; exercises the wrap path of the `add` handler. -/
def st_add255 : Chip8 :=
  { Chip8.new with cpu_registers := updateAt Chip8.new.cpu_registers 0 255 }

/-- Machine state with register `V0 = 2`, for the right-shift handler. -/
def st_shr2 : Chip8 :=
  { Chip8.new with cpu_registers := updateAt Chip8.new.cpu_registers 0 2 }

/-- Machine state with register `V0 = 0x80`, for the left-shift
handler (most-significant bit set). -/
def st_shl128 : Chip8 :=
  { Chip8.new with cpu_registers := updateAt Chip8.new.cpu_registers 0 0x80 }

/-- Machine state with `V0 = 60`, `V1 = 0`, index register `0x300` and
the single sprite row `0xFF` stored at `0x300`: a draw at column 60
must wrap its last four pixels to columns 0-3 of the same row. -/
def st_draw60 : Chip8 :=
  { Chip8.new with
      cpu_registers := updateAt Chip8.new.cpu_registers 0 60
      index_register := 0x300
      memory := updateAt Chip8.new.memory 0x300 0xFF }

/-- Machine state with `V0 = 5` and index register `0x100`, for the
index-register-add handler. -/
def st_idx : Chip8 :=
  { Chip8.new with
      cpu_registers := updateAt Chip8.new.cpu_registers 0 5
      index_register := 0x100 }

/-- Machine state with index register `0x300` and memory bytes
`0xAB, 0xCD` at `0x300, 0x301`, for the block-load handler. -/
def st_blockload : Chip8 :=
  { Chip8.new with
      index_register := 0x300
      memory := updateAt (updateAt Chip8.new.memory 0x300 0xAB) 0x301 0xCD }

/-- Machine state whose call stack is genuinely empty (the stack the
specification says a fresh machine should have). -/
def st_emptystack : Chip8 := { Chip8.new with stack_data := [] }

/-- Absorption of a repeated mask under bitwise AND on `Nat`. -/
theorem land_mask_absorb (v r : Nat) : (v &&& r) &&& v = v &&& r := by
  apply Nat.eq_of_testBit_eq
  intro i
  simp only [Nat.testBit_land]
  cases v.testBit i <;> cases r.testBit i <;> rfl

/-- Claim C1: the wait-for-key handler (`FX0A`) is claimed not to
fail and to enter an awaiting-key state.  The code instead panics
unconditionally: for every machine state and register index the
handler returns `none`, and no awaiting-key state exists anywhere in
the `Chip8` struct. -/
theorem wait_for_key_always_panics (s : Chip8) (reg_x : Nat) :
    s.wait_for_key reg_x = none := by
  unfold Chip8.wait_for_key
  cases validate_argument reg_x 0xFF <;> rfl

/-- Claim C2: two add-immediates are claimed to leave
`(initial + v + w) % 256` in the register.  With `V0 = 255`, `v = 1`,
`w = 0` the code leaves 1 (it subtracts 255, not 256, on overflow),
while `(255 + 1 + 0) % 256 = 0`. -/
theorem add_immediate_wraps_by_255_not_256 :
    ((st_add255.add 0 1).bind fun t => t.add 0 0).map (fun t => t.cpu_registers 0)
        = some 1
      ∧ (255 + 1 + 0) % 256 = 0 :=
  ⟨by decide, by decide⟩

/-- Claim C3: after shift-right of `V0 = 2` the claim demands
`V0 = 1, VF = 0`; after shift-left of `V0 = 0x80` it demands
`V0 = 0, VF = 1`.  The code overwrites the register with the
extracted bit before shifting and never writes the flag: both
executions end with `V0 = 0` and `VF = 0`. -/
theorem shift_instructions_discard_operand :
    (st_shr2.shift_right_register 0).map
        (fun t => (t.cpu_registers 0, t.cpu_registers 15)) = some (0, 0)
      ∧ (st_shl128.shift_left_register 0).map
        (fun t => (t.cpu_registers 0, t.cpu_registers 15)) = some (0, 0) :=
  ⟨by decide, by decide⟩

/-- Claim C4: a call with the stack at the traditional capacity of 16
entries is claimed to fail with StackOverflow.  The fresh machine
already holds 16 entries (`vec![0; 16]`), yet the call succeeds and
silently grows the stack to 17. -/
theorem call_at_capacity_pushes_past_bound :
    (Chip8.new.call_address 0x300).map
        (fun t => (t.program_counter, t.stack_data.length)) = some (0x300, 17) := by
  decide

/-- Claim C5: on a freshly initialized machine the stack is claimed
empty, so a return must fail with StackUnderflow and must not set the
program counter to zero.  The code initializes the stack to sixteen
zeros, so the return succeeds, sets the program counter to 0 and
shrinks the stack to 15. -/
theorem return_on_fresh_machine_sets_pc_zero :
    Chip8.new.subroutine_return.map
        (fun t => (t.program_counter, t.stack_data.length)) = some (0, 15) := by
  decide

/-- Claim C6: drawing row `0xFF` at column 60, row 0 is claimed to
light columns 60-63 and, wrapping modulo 64, columns 0-3 of row 0.
The code uses the unwrapped linear index `y * 64 + x + b`: cell 0
(row 0, column 0) stays unlit while cell 64 (row 1, column 0)
is lit — the sprite spills into the next row instead of wrapping. -/
theorem draw_spills_into_next_row :
    (st_draw60.draw 0 1 1).map
        (fun t => (t.gfx 0, t.gfx 63, t.gfx 64, t.gfx 67, t.cpu_registers 15))
      = some (0, 255, 255, 255, 0) := by
  decide

/-- Claim C7: `FX1E` is claimed to add `Vx` to the index register.
With index register `0x100` and `V0 = 5` the code leaves the index
register at 5, not `0x105`: the handler assigns instead of adding. -/
theorem index_reg_add_overwrites_index :
    (st_idx.index_reg_add 0).map (fun t => t.index_register) = some 5 := by
  decide

/-- Claim C8: `FX65` with nibble `N` is claimed to load `N + 1` bytes
into registers `0` through `N`.  With `N = 1` the code loads only
`memory[I]` into `V0` and leaves `V1` untouched (loop `0..N`
instead of `0..=N`). -/
theorem read_memory_skips_register_n :
    (st_blockload.read_memory 1).map
        (fun t => (t.cpu_registers 0, t.cpu_registers 1)) = some (0xAB, 0) := by
  decide

/-- Claim C9: from any state whose stack is below the traditional
capacity, a call to a valid 12-bit address followed immediately by a
return restores the program counter to the value it held after the
call's own fetch advance (the value `call_address` receives). -/
theorem call_then_return_restores_pc (s : Chip8) (addr : Nat)
    (hcap : s.stack_data.length < 16) (haddr : addr &&& 0xFFF = addr) :
    ((s.call_address addr).bind Chip8.subroutine_return).map Chip8.program_counter
      = some s.program_counter := by
  unfold Chip8.call_address
  rw [validate_argument, if_pos haddr]
  simp [Chip8.subroutine_return]

/-- Concrete instantiation of the call-return round trip on the
empty-stack machine with target address `0x300`. -/
theorem call_then_return_restores_pc_witness :
    ((st_emptystack.call_address 0x300).bind Chip8.subroutine_return).map
        Chip8.program_counter = some 0x200 :=
  call_then_return_restores_pc st_emptystack 0x300 (by decide) (by decide)

/-- Claim C10: whatever byte the random source yields, `CXNN` stores a
value that still satisfies `stored &&& k = stored` for the immediate
mask `k`, and the handler touches no register other than the
destination, nor the memory, display, timers, stack, keypad, index
register or program counter. -/
theorem set_rand_respects_mask_and_frame (s : Chip8) (reg_x value random_num : Nat) :
    ((s.set_rand reg_x value random_num).cpu_registers reg_x) &&& value
        = (s.set_rand reg_x value random_num).cpu_registers reg_x
      ∧ (∀ j, j = reg_x ∨
          (s.set_rand reg_x value random_num).cpu_registers j = s.cpu_registers j)
      ∧ (s.set_rand reg_x value random_num).memory = s.memory
      ∧ (s.set_rand reg_x value random_num).gfx = s.gfx
      ∧ (s.set_rand reg_x value random_num).program_counter = s.program_counter
      ∧ (s.set_rand reg_x value random_num).index_register = s.index_register
      ∧ (s.set_rand reg_x value random_num).delay_timer = s.delay_timer
      ∧ (s.set_rand reg_x value random_num).sound_timer = s.sound_timer
      ∧ (s.set_rand reg_x value random_num).stack_data = s.stack_data
      ∧ (s.set_rand reg_x value random_num).key_states = s.key_states := by
  refine ⟨?_, ?_, rfl, rfl, rfl, rfl, rfl, rfl, rfl, rfl⟩
  · simp only [Chip8.set_rand, updateAt, if_pos rfl]
    exact land_mask_absorb value random_num
  · intro j
    by_cases h : j = reg_x
    · exact Or.inl h
    · exact Or.inr (by simp [Chip8.set_rand, updateAt, h])

end RustyChip
